import Mathlib

/-!
Verification development for the scagaire repository: a shallow embedding of
the format-detecting AMR parsing layer, the species knowledge base, the
filter engine and the summary aggregator, together with theorems settling
the specification claims.

Python-level conventions used throughout the embedding:
- a value that Python computes normally is `some v`; a raised exception
  (IndexError, ValueError, csv errors, TypeError from joining None) is `none`;
- Python strings are `String`, Python ints are `Int`;
- Python object attributes that start as `None` are `Option String` fields;
- Python dicts (insertion ordered) are association lists `List (String × β)`
  whose insert updates an existing key in place and otherwise appends.
-/

/-- Python dict key-membership test (`k in d`) on the association-list model. -/
def pyDictContains {β : Type} (d : List (String × β)) (k : String) : Bool :=
  d.any (fun p => decide (p.1 = k))

/-- Python dict assignment `d[k] = v`: update the existing key in place,
otherwise append at the end (insertion order). -/
def pyDictSet {β : Type} (d : List (String × β)) (k : String) (v : β) :
    List (String × β) :=
  if pyDictContains d k then
    d.map (fun p => if p.1 = k then (p.1, v) else p)
  else
    d ++ [(k, v)]

/-- Python dict lookup `d[k]` (first matching key). -/
def pyDictGet {β : Type} (d : List (String × β)) (k : String) : Option β :=
  match d with
  | [] => none
  | p :: ps => if p.1 = k then some p.2 else pyDictGet ps k

/-- All-or-nothing sequencing of optional strings; `none` models a Python
`TypeError` raised when a `None` attribute reaches `str.join`. -/
def sequenceOption : List (Option String) → Option (List String)
  | [] => some []
  | none :: _ => none
  | some s :: rest => (sequenceOption rest).map (fun l => s :: l)

/-- Python `sep.join(xs)` where each element may be `None` (which raises). -/
def pyJoin (sep : String) (xs : List (Option String)) : Option String :=
  (sequenceOption xs).map (fun l => String.intercalate sep l)

/-- Digit run to a natural number; `none` on empty input or a non-digit. -/
def digitsToNat : List Char → Option Nat
  | [] => none
  | [c] => if c.isDigit then some (c.toNat - 48) else none
  | c :: rest =>
    if c.isDigit then
      (digitsToNat rest).map (fun n => (c.toNat - 48) * 10 ^ rest.length + n)
    else none

/-- Python `int(s)` on the inputs the repository feeds it: optional
whitespace, an optional sign, then decimal digits; `none` models the
`ValueError` raised on anything else. -/
def pyInt (s : String) : Option Int :=
  let t := s.trim
  if t.take 1 = "-" then (digitsToNat (t.drop 1).data).map (fun n => -(n : Int))
  else if t.take 1 = "+" then (digitsToNat (t.drop 1).data).map (fun n => (n : Int))
  else (digitsToNat t.data).map (fun n => (n : Int))

/-- One row of the species knowledge base (scagaire/SpeciesGenes.py). -/
structure SpeciesGenes where
  species : String
  gene : String
  occurances : Int
  database_name : String
deriving DecidableEq, Repr

/-- scagaire/parser/SpeciesToGenes.py line 41: minimum columns for a data row. -/
def SpeciesToGenes.minimum_num_columns : Nat := 3

/-- One knowledge-base data row of `SpeciesToGenes.populate`: rows shorter
than the minimum are skipped by the caller; otherwise fields 0,1,2,4 are read
(`int(row[2])` is evaluated before `row[4]`, both failures collapse to
`none`). -/
def SpeciesToGenes.parse_row (row : List String) : Option SpeciesGenes :=
  match pyInt (row.getD 2 "") with
  | none => none
  | some occ =>
    match row.get? 4 with
    | none => none
    | some db => some ⟨row.getD 0 "", row.getD 1 "", occ, db⟩

/-- scagaire/parser/SpeciesToGenes.py `populate` (lines 69-88), applied to the
data rows (header already removed): skip rows with fewer than
`minimum_num_columns` fields, otherwise build a `SpeciesGenes` entry; any
exception aborts the whole load. -/
def SpeciesToGenes.populate : List (List String) → Option (List SpeciesGenes)
  | [] => some []
  | row :: rest =>
    if row.length < SpeciesToGenes.minimum_num_columns then
      SpeciesToGenes.populate rest
    else
      match SpeciesToGenes.parse_row row with
      | none => none
      | some g => (SpeciesToGenes.populate rest).map (fun l => g :: l)

/-- scagaire/parser/SpeciesToGenes.py `filter_by_species` (line 178): entries
whose species and database name both match exactly. -/
def SpeciesToGenes.filter_by_species (kb : List SpeciesGenes)
    (query database_name : String) : List SpeciesGenes :=
  kb.filter (fun s => decide (s.species = query ∧ s.database_name = database_name))

/-- scagaire/FilterResults.py line 80: the dict comprehension
`{ g.gene: g.occurances for g in species_genes if g.occurances >= minimum }`. -/
def FilterResults.species_genes_to_occurances (species_genes : List SpeciesGenes)
    (minimum_occurances : Int) : List (String × Int) :=
  species_genes.foldl
    (fun d g =>
      if minimum_occurances ≤ g.occurances then pyDictSet d g.gene g.occurances
      else d)
    []

/-- scagaire/FilterResults.py `filter_by_species` (lines 54-85), from the point
where the AMR records are parsed and the knowledge base is loaded: restrict the
knowledge base to the species/database pair, keep genes meeting the minimum
occurrence threshold, and retain the records whose gene is a key of that dict.
`gene` is the duck-typed `.gene` attribute of the record type. -/
def FilterResults.filter_by_species {α : Type} (gene : α → String)
    (all_results : List α) (kb : List SpeciesGenes)
    (species database_name : String) (minimum_occurances : Int) : List α :=
  let species_genes := SpeciesToGenes.filter_by_species kb species database_name
  let d := FilterResults.species_genes_to_occurances species_genes minimum_occurances
  all_results.filter (fun r => pyDictContains d (gene r))

/-- scagaire/SummaryResult.py: gene name with its accumulated count. -/
structure SummaryResult where
  gene_name : String
  occurances : Nat
deriving DecidableEq, Repr

/-- One step of scagaire/Summary.py `aggregate_results` (lines 45-51): bump the
count of an already-seen gene in place, otherwise insert a fresh entry. -/
def Summary.step {α : Type} (gene : α → String)
    (d : List (String × SummaryResult)) (r : α) : List (String × SummaryResult) :=
  if pyDictContains d (gene r) then
    d.map (fun p =>
      if p.1 = gene r then (p.1, ⟨p.2.gene_name, p.2.occurances + 1⟩) else p)
  else
    d ++ [(gene r, ⟨gene r, 1⟩)]

/-- scagaire/Summary.py `aggregate_results` (lines 33-53): fold the records
into an insertion-ordered dict from gene name to `SummaryResult`. -/
def Summary.aggregate_results {α : Type} (gene : α → String) (results : List α) :
    List (String × SummaryResult) :=
  results.foldl (Summary.step gene) []

/-- Modelled from the spec: the claim's reading of "entries appearing in the
order of each gene's first occurrence" — keep the first occurrence of every
gene name, in input order. -/
def spec_first_occurrence_order (l : List String) : List String :=
  l.foldl (fun acc g => if g ∈ acc then acc else acc ++ [g]) []

/-- scagaire/parser/AmrParser.py `is_valid` (lines 43-54): walk the actual
header positions; a mismatch returns `false`; running past the end of the
expected header (`default_header[i]`) raises IndexError, modelled as `none`. -/
def AmrParser.is_valid : (header : List String) → (default_header : List String) → Option Bool
  | [], _ => some true
  | _ :: _, [] => none
  | h :: hs, d :: ds => if h ≠ d then some false else AmrParser.is_valid hs ds

/-- Inner loop of `populate_results` (scagaire/parser/Abricate097.py lines
92-98) for one data row: for each value at index `i`, look up the actual
header name at `i` (IndexError when the row is longer than the header) and,
when that column is in `column_to_variable_mapping`, set the mapped attribute. -/
def AmrParser.populate_row {α : Type} (header : List String)
    (mapping : List (String × String)) (setAttr : α → String → String → α) :
    α → Nat → List String → Option α
  | r, _, [] => some r
  | r, i, v :: vs =>
    match header.get? i with
    | none => none
    | some col =>
      match pyDictGet mapping col with
      | some attr => AmrParser.populate_row header mapping setAttr (setAttr r attr v) (i + 1) vs
      | none => AmrParser.populate_row header mapping setAttr r (i + 1) vs

/-- scagaire/parser/Abricate097.py `populate_results` (lines 68-102) applied to
the data rows: skip rows shorter than `minimum_num_columns`, parse the rest
into fresh records; any exception aborts the parse. -/
def AmrParser.populate_results {α : Type} (minimum_num_columns : Nat)
    (header : List String) (mapping : List (String × String))
    (setAttr : α → String → String → α) (init : α) :
    List (List String) → Option (List α)
  | [] => some []
  | row :: rows =>
    if row.length < minimum_num_columns then
      AmrParser.populate_results minimum_num_columns header mapping setAttr init rows
    else
      match AmrParser.populate_row header mapping setAttr init 0 row with
      | none => none
      | some r =>
        (AmrParser.populate_results minimum_num_columns header mapping setAttr init rows).map
          (fun l => r :: l)

/-- Construction of a dialect parser object on already-split file contents:
pop the first row as the actual header (IndexError on an empty file), parse
the remaining rows, and return the results together with the actual header. -/
def AmrParser.load {α : Type} (minimum_num_columns : Nat)
    (mapping : List (String × String)) (setAttr : α → String → String → α)
    (init : α) (contents : List (List String)) :
    Option (List α × List String) :=
  match contents with
  | [] => none
  | header :: rows =>
    (AmrParser.populate_results minimum_num_columns header mapping setAttr init rows).map
      (fun rs => (rs, header))

/-- scagaire/AbricateResult097.py: one Abricate 0.9.7 record; attributes start
as Python `None`. -/
structure AbricateResult097 where
  file : Option String := none
  sequence : Option String := none
  start : Option String := none
  end_ : Option String := none
  gene : Option String := none
  coverage : Option String := none
  coverage_map : Option String := none
  gaps : Option String := none
  perc_coverage : Option String := none
  perc_identity : Option String := none
  database : Option String := none
  accession : Option String := none
  product : Option String := none
  header : List String := []
deriving DecidableEq, Repr

/-- Python `setattr` restricted to the attribute names the Abricate 0.9.7
column mapping can produce. -/
def AbricateResult097.setAttr (r : AbricateResult097) (name v : String) :
    AbricateResult097 :=
  if name = "file" then { r with file := some v }
  else if name = "sequence" then { r with sequence := some v }
  else if name = "start" then { r with start := some v }
  else if name = "end" then { r with end_ := some v }
  else if name = "gene" then { r with gene := some v }
  else if name = "coverage" then { r with coverage := some v }
  else if name = "coverage_map" then { r with coverage_map := some v }
  else if name = "gaps" then { r with gaps := some v }
  else if name = "perc_coverage" then { r with perc_coverage := some v }
  else if name = "perc_identity" then { r with perc_identity := some v }
  else if name = "database" then { r with database := some v }
  else if name = "accession" then { r with accession := some v }
  else if name = "product" then { r with product := some v }
  else r

/-- scagaire/AbricateResult097.py `__str__` (lines 54-62): tab-join the 13
attributes in dialect column order; joining a `None` attribute raises. -/
def AbricateResult097.str (r : AbricateResult097) : Option String :=
  pyJoin "\t" [r.file, r.sequence, r.start, r.end_, r.gene, r.coverage,
    r.coverage_map, r.gaps, r.perc_coverage, r.perc_identity, r.database,
    r.accession, r.product]

/-- scagaire/parser/Abricate097.py line 44. -/
def Abricate097.minimum_num_columns : Nat := 13

/-- scagaire/parser/Abricate097.py line 45. -/
def Abricate097.default_header : List String :=
  ["#FILE", "SEQUENCE", "START", "END", "GENE", "COVERAGE", "COVERAGE_MAP",
   "GAPS", "%COVERAGE", "%IDENTITY", "DATABASE", "ACCESSION", "PRODUCT"]

/-- scagaire/parser/Abricate097.py lines 49-63. -/
def Abricate097.column_to_variable_mapping : List (String × String) :=
  [("#FILE", "file"), ("SEQUENCE", "sequence"), ("START", "start"),
   ("END", "end"), ("GENE", "gene"), ("COVERAGE", "coverage"),
   ("COVERAGE_MAP", "coverage_map"), ("GAPS", "gaps"),
   ("%COVERAGE", "perc_coverage"), ("%IDENTITY", "perc_identity"),
   ("DATABASE", "database"), ("ACCESSION", "accession"), ("PRODUCT", "product")]

/-- Construction of `Abricate097(input_file, verbose)` on split file contents;
fresh records carry the dialect's default header for display. -/
def Abricate097.mk (contents : List (List String)) :
    Option (List AbricateResult097 × List String) :=
  AmrParser.load Abricate097.minimum_num_columns Abricate097.column_to_variable_mapping
    AbricateResult097.setAttr { header := Abricate097.default_header } contents

/-- scagaire/AbricateResult098.py: one Abricate 0.9.8+ record (adds strand and
resistance to the 0.9.7 shape). -/
structure AbricateResult098 where
  file : Option String := none
  sequence : Option String := none
  start : Option String := none
  end_ : Option String := none
  strand : Option String := none
  gene : Option String := none
  coverage : Option String := none
  coverage_map : Option String := none
  gaps : Option String := none
  perc_coverage : Option String := none
  perc_identity : Option String := none
  database : Option String := none
  accession : Option String := none
  product : Option String := none
  resistance : Option String := none
  header : List String := []
deriving DecidableEq, Repr

/-- Python `setattr` restricted to the Abricate 0.9.8+ attribute names. -/
def AbricateResult098.setAttr (r : AbricateResult098) (name v : String) :
    AbricateResult098 :=
  if name = "file" then { r with file := some v }
  else if name = "sequence" then { r with sequence := some v }
  else if name = "start" then { r with start := some v }
  else if name = "end" then { r with end_ := some v }
  else if name = "strand" then { r with strand := some v }
  else if name = "gene" then { r with gene := some v }
  else if name = "coverage" then { r with coverage := some v }
  else if name = "coverage_map" then { r with coverage_map := some v }
  else if name = "gaps" then { r with gaps := some v }
  else if name = "perc_coverage" then { r with perc_coverage := some v }
  else if name = "perc_identity" then { r with perc_identity := some v }
  else if name = "database" then { r with database := some v }
  else if name = "accession" then { r with accession := some v }
  else if name = "product" then { r with product := some v }
  else if name = "resistance" then { r with resistance := some v }
  else r

/-- scagaire/AbricateResult098.py `__str__` (lines 58-66): tab-join the 15
attributes in dialect column order. -/
def AbricateResult098.str (r : AbricateResult098) : Option String :=
  pyJoin "\t" [r.file, r.sequence, r.start, r.end_, r.strand, r.gene,
    r.coverage, r.coverage_map, r.gaps, r.perc_coverage, r.perc_identity,
    r.database, r.accession, r.product, r.resistance]

/-- Modelled from the spec: the Abricate098 parser class is not under src
(only its result class and its caller IdentifyResults are); following the
spec's AbricateCurrent schema — the AbricateLegacy columns with STRAND after
END and RESISTANCE last, matching the field order of
scagaire/AbricateResult098.py `__str__` — with header validation and row
parsing inherited from AmrParser as in Abricate097. -/
def Abricate098.default_header : List String :=
  ["#FILE", "SEQUENCE", "START", "END", "STRAND", "GENE", "COVERAGE",
   "COVERAGE_MAP", "GAPS", "%COVERAGE", "%IDENTITY", "DATABASE", "ACCESSION",
   "PRODUCT", "RESISTANCE"]

/-- Modelled from the spec: minimum column count of the missing Abricate098
parser class, the dialect's own column count (15), as in Abricate097. -/
def Abricate098.minimum_num_columns : Nat := 15

/-- Modelled from the spec: column-to-attribute mapping of the missing
Abricate098 parser class, the Abricate097 mapping extended with STRAND and
RESISTANCE. -/
def Abricate098.column_to_variable_mapping : List (String × String) :=
  [("#FILE", "file"), ("SEQUENCE", "sequence"), ("START", "start"),
   ("END", "end"), ("STRAND", "strand"), ("GENE", "gene"),
   ("COVERAGE", "coverage"), ("COVERAGE_MAP", "coverage_map"), ("GAPS", "gaps"),
   ("%COVERAGE", "perc_coverage"), ("%IDENTITY", "perc_identity"),
   ("DATABASE", "database"), ("ACCESSION", "accession"), ("PRODUCT", "product"),
   ("RESISTANCE", "resistance")]

/-- Construction of `Abricate098(input_file, verbose)` on split file contents. -/
def Abricate098.mk (contents : List (List String)) :
    Option (List AbricateResult098 × List String) :=
  AmrParser.load Abricate098.minimum_num_columns Abricate098.column_to_variable_mapping
    AbricateResult098.setAttr { header := Abricate098.default_header } contents

/-- scagaire/StaramrResult.py: one StarAMR record. -/
structure StaramrResult where
  file : Option String := none
  sequence : Option String := none
  start : Option String := none
  end_ : Option String := none
  gene : Option String := none
  coverage : Option String := none
  perc_coverage : Option String := none
  perc_identity : Option String := none
  accession : Option String := none
  resistance : Option String := none
  header : List String := []
deriving DecidableEq, Repr

/-- Python `setattr` restricted to the StarAMR attribute names. -/
def StaramrResult.setAttr (r : StaramrResult) (name v : String) : StaramrResult :=
  if name = "file" then { r with file := some v }
  else if name = "sequence" then { r with sequence := some v }
  else if name = "start" then { r with start := some v }
  else if name = "end" then { r with end_ := some v }
  else if name = "gene" then { r with gene := some v }
  else if name = "coverage" then { r with coverage := some v }
  else if name = "perc_coverage" then { r with perc_coverage := some v }
  else if name = "perc_identity" then { r with perc_identity := some v }
  else if name = "accession" then { r with accession := some v }
  else if name = "resistance" then { r with resistance := some v }
  else r

/-- scagaire/StaramrResult.py `__str__` (lines 48-55): tab-join the 10
attributes in dialect column order. -/
def StaramrResult.str (r : StaramrResult) : Option String :=
  pyJoin "\t" [r.file, r.gene, r.resistance, r.perc_identity, r.perc_coverage,
    r.coverage, r.sequence, r.start, r.end_, r.accession]

/-- Modelled from the spec: the Staramr parser class is not under src; the
spec's StarAmr schema order (file, gene, resistance, percent_identity,
percent_coverage, coverage, sequence, start, end, accession), which matches
scagaire/StaramrResult.py `__str__`; exact column strings are not recorded in
src, so the spec's field names stand in for them. -/
def Staramr.default_header : List String :=
  ["file", "gene", "resistance", "percent_identity", "percent_coverage",
   "coverage", "sequence", "start", "end", "accession"]

/-- Modelled from the spec: minimum column count of the missing Staramr parser
class, the dialect's own column count (10). -/
def Staramr.minimum_num_columns : Nat := 10

/-- Modelled from the spec: column-to-attribute mapping of the missing Staramr
parser class. -/
def Staramr.column_to_variable_mapping : List (String × String) :=
  [("file", "file"), ("gene", "gene"), ("resistance", "resistance"),
   ("percent_identity", "perc_identity"), ("percent_coverage", "perc_coverage"),
   ("coverage", "coverage"), ("sequence", "sequence"), ("start", "start"),
   ("end", "end"), ("accession", "accession")]

/-- Construction of `Staramr(input_file, verbose)` on split file contents. -/
def Staramr.mk (contents : List (List String)) :
    Option (List StaramrResult × List String) :=
  AmrParser.load Staramr.minimum_num_columns Staramr.column_to_variable_mapping
    StaramrResult.setAttr { header := Staramr.default_header } contents

/-- scagaire/RgiResult.py: one RGI (CARD) record, 25 attributes. -/
structure RgiResult where
  orf_id : Option String := none
  contig : Option String := none
  start : Option String := none
  end_ : Option String := none
  orientation : Option String := none
  cut_off : Option String := none
  pass_bitscore : Option String := none
  best_hit_bitscore : Option String := none
  gene : Option String := none
  best_identities : Option String := none
  aro : Option String := none
  model_type : Option String := none
  snps_in_best_hit_aro : Option String := none
  other_snps : Option String := none
  drug_class : Option String := none
  resistance_mechanism : Option String := none
  amr_gene_family : Option String := none
  predicted_dna : Option String := none
  predicted_protein : Option String := none
  card_protein_sequence : Option String := none
  percentage_length_of_reference_sequence : Option String := none
  id : Option String := none
  model_id : Option String := none
  nudged : Option String := none
  note : Option String := none
  header : List String := []
deriving DecidableEq, Repr

/-- Python `setattr` restricted to the RGI attribute names. -/
def RgiResult.setAttr (r : RgiResult) (name v : String) : RgiResult :=
  if name = "orf_id" then { r with orf_id := some v }
  else if name = "contig" then { r with contig := some v }
  else if name = "start" then { r with start := some v }
  else if name = "end" then { r with end_ := some v }
  else if name = "orientation" then { r with orientation := some v }
  else if name = "cut_off" then { r with cut_off := some v }
  else if name = "pass_bitscore" then { r with pass_bitscore := some v }
  else if name = "best_hit_bitscore" then { r with best_hit_bitscore := some v }
  else if name = "gene" then { r with gene := some v }
  else if name = "best_identities" then { r with best_identities := some v }
  else if name = "aro" then { r with aro := some v }
  else if name = "model_type" then { r with model_type := some v }
  else if name = "snps_in_best_hit_aro" then { r with snps_in_best_hit_aro := some v }
  else if name = "other_snps" then { r with other_snps := some v }
  else if name = "drug_class" then { r with drug_class := some v }
  else if name = "resistance_mechanism" then { r with resistance_mechanism := some v }
  else if name = "amr_gene_family" then { r with amr_gene_family := some v }
  else if name = "predicted_dna" then { r with predicted_dna := some v }
  else if name = "predicted_protein" then { r with predicted_protein := some v }
  else if name = "card_protein_sequence" then { r with card_protein_sequence := some v }
  else if name = "percentage_length_of_reference_sequence" then { r with percentage_length_of_reference_sequence := some v }
  else if name = "id" then { r with id := some v }
  else if name = "model_id" then { r with model_id := some v }
  else if name = "nudged" then { r with nudged := some v }
  else if name = "note" then { r with note := some v }
  else r

/-- scagaire/RgiResult.py `__str__` (lines 78-86): tab-join the 25 attributes
in dialect column order. -/
def RgiResult.str (r : RgiResult) : Option String :=
  pyJoin "\t" [r.orf_id, r.contig, r.start, r.end_, r.orientation, r.cut_off,
    r.pass_bitscore, r.best_hit_bitscore, r.gene, r.best_identities, r.aro,
    r.model_type, r.snps_in_best_hit_aro, r.other_snps, r.drug_class,
    r.resistance_mechanism, r.amr_gene_family, r.predicted_dna,
    r.predicted_protein, r.card_protein_sequence,
    r.percentage_length_of_reference_sequence, r.id, r.model_id, r.nudged,
    r.note]

/-- Modelled from the spec: the Rgi parser class is not under src; the RGI
schema in the attribute order of scagaire/RgiResult.py `__str__`; exact column
strings are not recorded in src, so the attribute names stand in for them. -/
def Rgi.default_header : List String :=
  ["orf_id", "contig", "start", "end", "orientation", "cut_off",
   "pass_bitscore", "best_hit_bitscore", "gene", "best_identities", "aro",
   "model_type", "snps_in_best_hit_aro", "other_snps", "drug_class",
   "resistance_mechanism", "amr_gene_family", "predicted_dna",
   "predicted_protein", "card_protein_sequence",
   "percentage_length_of_reference_sequence", "id", "model_id", "nudged",
   "note"]

/-- Modelled from the spec: minimum column count of the missing Rgi parser
class, the dialect's own column count (25). -/
def Rgi.minimum_num_columns : Nat := 25

/-- Modelled from the spec: column-to-attribute mapping of the missing Rgi
parser class (identity on the attribute names). -/
def Rgi.column_to_variable_mapping : List (String × String) :=
  Rgi.default_header.map (fun c => (c, c))

/-- Construction of `Rgi(input_file, verbose)` on split file contents. -/
def Rgi.mk (contents : List (List String)) :
    Option (List RgiResult × List String) :=
  AmrParser.load Rgi.minimum_num_columns Rgi.column_to_variable_mapping
    RgiResult.setAttr { header := Rgi.default_header } contents

/-- The value returned by `IdentifyResults.get_results`: the record list of
whichever dialect parser was selected, or the bare empty list fallback. -/
inductive AmrResults where
  | abricate098 : List AbricateResult098 → AmrResults
  | abricate097 : List AbricateResult097 → AmrResults
  | staramr : List StaramrResult → AmrResults
  | rgi : List RgiResult → AmrResults
  | empty : AmrResults
deriving DecidableEq, Repr

/-- scagaire/IdentifyResults.py `get_results` (lines 43-77) on split file
contents: construct each dialect parser in the fixed order, return its
results when its header validation succeeds or (for the last three dialects
only) the explicit results_type hint names it; fall through to the bare empty
list. Constructor or validation exceptions propagate as `none`. -/
def IdentifyResults.get_results (contents : List (List String))
    (results_type : Option String) : Option AmrResults :=
  match Abricate098.mk contents with
  | none => none
  | some (r98, h98) =>
    match AmrParser.is_valid h98 Abricate098.default_header with
    | none => none
    | some true => some (AmrResults.abricate098 r98)
    | some false =>
      match Abricate097.mk contents with
      | none => none
      | some (r97, h97) =>
        match AmrParser.is_valid h97 Abricate097.default_header with
        | none => none
        | some v97 =>
          if v97 ∨ results_type = some "abricate" then
            some (AmrResults.abricate097 r97)
          else
            match Staramr.mk contents with
            | none => none
            | some (rs, hs) =>
              match AmrParser.is_valid hs Staramr.default_header with
              | none => none
              | some vs =>
                if vs ∨ results_type = some "staramr" then
                  some (AmrResults.staramr rs)
                else
                  match Rgi.mk contents with
                  | none => none
                  | some (rr, hr) =>
                    match AmrParser.is_valid hr Rgi.default_header with
                    | none => none
                    | some vr =>
                      if vr ∨ results_type = some "rgi" then
                        some (AmrResults.rgi rr)
                      else
                        some AmrResults.empty

/-- scagaire/Scagaire.py `run` (lines 185-190): the header line written for a
species block — the tab-joined display header of the first retained record
when any record was retained, the literal `No results` otherwise. -/
def Scagaire.header_line {α : Type} (headerOf : α → List String)
    (results : List α) : String :=
  match results with
  | [] => "No results"
  | r :: _ => String.intercalate "\t" (headerOf r)

/-- scagaire/Scagaire.py `run` (line 183): the body written for a species
block, the newline-joined rendered records (empty string for no records). -/
def Scagaire.output_content {α : Type} (strOf : α → Option String)
    (results : List α) : Option String :=
  pyJoin "\n" (results.map strOf)

/-! Helper lemmas about the Python-dict model. -/

theorem list_any_congr {α : Type} {p q : α → Bool} (l : List α)
    (h : ∀ a ∈ l, p a = q a) : l.any p = l.any q := by
  induction l with
  | nil => rfl
  | cons a l ih =>
    rw [List.any_cons, List.any_cons, h a (List.mem_cons_self a l),
      ih (fun b hb => h b (List.mem_cons_of_mem a hb))]

theorem pyDictContains_map_key_preserving {β : Type} (d : List (String × β))
    (f : String × β → String × β) (hf : ∀ p, (f p).1 = p.1) (x : String) :
    pyDictContains (d.map f) x = pyDictContains d x := by
  unfold pyDictContains
  rw [List.any_map]
  exact list_any_congr d (fun p _ => by simp [Function.comp, hf p])

theorem pyDictContains_append {β : Type} (d₁ d₂ : List (String × β)) (x : String) :
    pyDictContains (d₁ ++ d₂) x = (pyDictContains d₁ x || pyDictContains d₂ x) :=
  List.any_append

theorem pyDictContains_set {β : Type} (d : List (String × β)) (k : String) (v : β)
    (x : String) :
    pyDictContains (pyDictSet d k v) x = (decide (k = x) || pyDictContains d x) := by
  unfold pyDictSet
  by_cases hk : pyDictContains d k
  · rw [if_pos hk]
    rw [pyDictContains_map_key_preserving d _ (fun p => by by_cases hp : p.1 = k <;> simp [hp]) x]
    by_cases hkx : k = x
    · subst hkx
      simp [hk]
    · simp [hkx]
  · rw [if_neg hk, pyDictContains_append]
    have hone : pyDictContains [(k, v)] x = decide (k = x) := by
      simp [pyDictContains]
    rw [hone, Bool.or_comm]

theorem pyDictGet_append {β : Type} (d₁ d₂ : List (String × β)) (x : String) :
    pyDictGet (d₁ ++ d₂) x =
      match pyDictGet d₁ x with
      | some v => some v
      | none => pyDictGet d₂ x := by
  induction d₁ with
  | nil => simp [pyDictGet]
  | cons p ps ih =>
    by_cases hp : p.1 = x <;> simp [pyDictGet, hp, ih]

theorem pyDictGet_map_update {β : Type} (d : List (String × β)) (k : String)
    (F : β → β) (x : String) :
    pyDictGet (d.map (fun p => if p.1 = k then (p.1, F p.2) else p)) x =
      if k = x then (pyDictGet d x).map F else pyDictGet d x := by
  induction d with
  | nil => simp [pyDictGet]
  | cons p ps ih =>
    by_cases hpk : p.1 = k
    · by_cases hkx : k = x
      · subst hkx
        simp [pyDictGet, hpk, ih]
      · have hpx : ¬ p.1 = x := by
          rw [hpk]
          exact hkx
        simp [pyDictGet, hpk, hpx, hkx, ih]
    · by_cases hpx : p.1 = x
      · have hkx : ¬ k = x := by
          intro he
          exact hpk (hpx.trans he.symm)
        have hxk : ¬ x = k := fun he => hkx he.symm
        simp [pyDictGet, hpk, hpx, hkx, hxk]
      · simp [pyDictGet, hpk, hpx, ih]

theorem pyDictGet_none_iff {β : Type} (d : List (String × β)) (k : String) :
    pyDictGet d k = none ↔ pyDictContains d k = false := by
  induction d with
  | nil => simp [pyDictGet, pyDictContains]
  | cons p ps ih =>
    by_cases hp : p.1 = k
    · simp [pyDictGet, pyDictContains, hp]
    · simp [pyDictGet, pyDictContains, hp]
      simpa [pyDictContains] using ih

theorem contains_species_genes_to_occurances_aux (m : Int) (sg : List SpeciesGenes)
    (d : List (String × Int)) (x : String) :
    pyDictContains
        (sg.foldl
          (fun d g =>
            if m ≤ g.occurances then pyDictSet d g.gene g.occurances else d) d)
        x =
      (pyDictContains d x ||
        sg.any (fun g => decide (g.gene = x) && decide (m ≤ g.occurances))) := by
  induction sg generalizing d with
  | nil => simp
  | cons g gs ih =>
    rw [List.foldl_cons, ih, List.any_cons]
    by_cases hm : m ≤ g.occurances
    · rw [if_pos hm, pyDictContains_set]
      simp [hm, Bool.or_assoc, Bool.or_comm, Bool.or_left_comm]
    · rw [if_neg hm]
      simp [hm]

theorem contains_species_genes_to_occurances (m : Int) (sg : List SpeciesGenes)
    (x : String) :
    pyDictContains (FilterResults.species_genes_to_occurances sg m) x =
      sg.any (fun g => decide (g.gene = x) && decide (m ≤ g.occurances)) := by
  unfold FilterResults.species_genes_to_occurances
  rw [contains_species_genes_to_occurances_aux]
  simp [pyDictContains]

theorem filter_membership_test {α : Type} (gene : α → String)
    (kb : List SpeciesGenes) (sp db : String) (m : Int) (r : α) :
    pyDictContains
        (FilterResults.species_genes_to_occurances
          (SpeciesToGenes.filter_by_species kb sp db) m) (gene r) =
      kb.any (fun g =>
        decide (g.species = sp ∧ g.database_name = db ∧ g.gene = gene r ∧
          m ≤ g.occurances)) := by
  rw [contains_species_genes_to_occurances]
  unfold SpeciesToGenes.filter_by_species
  rw [List.any_filter]
  apply list_any_congr
  intro g _
  by_cases h1 : g.species = sp <;> by_cases h2 : g.database_name = db <;>
    by_cases h3 : g.gene = gene r <;> by_cases h4 : m ≤ g.occurances <;>
    simp [h1, h2, h3, h4]

/-- C1 (confirmed): for every parsed AMR record list, knowledge base, target
species, database name and minimum-occurrence threshold,
`FilterResults.filter_by_species` returns exactly the records whose gene the
knowledge base associates with that (species, database) pair with occurrence
count at or above the threshold — stated as equality with a filter over the
claim's membership predicate (so entries below the threshold are excluded) —
and the result is a sublist of the input: original order, no duplication, no
reordering. -/
theorem claim_C1_filter_by_species_exact {α : Type} (gene : α → String)
    (all_results : List α) (kb : List SpeciesGenes) (sp db : String) (m : Int) :
    FilterResults.filter_by_species gene all_results kb sp db m =
      all_results.filter (fun r =>
        kb.any (fun g =>
          decide (g.species = sp ∧ g.database_name = db ∧ g.gene = gene r ∧
            m ≤ g.occurances))) ∧
    List.Sublist (FilterResults.filter_by_species gene all_results kb sp db m)
      all_results := by
  constructor
  · simp only [FilterResults.filter_by_species]
    exact List.filter_congr (fun r _ => filter_membership_test gene kb sp db m r)
  · simp only [FilterResults.filter_by_species]
    exact List.filter_sublist all_results

/-- C10 (counterexample): with two knowledge-base entries sharing species,
gene and database — occurrence counts 5 then 1 in file order — and threshold
3, the record bearing that gene is retained although the last entry's count
(1) is below the threshold; the claim predicts the empty list. -/
theorem claim_C10_counterexample :
    FilterResults.filter_by_species id ["geneA"]
        [⟨"SpeciesX", "geneA", 5, "db1"⟩, ⟨"SpeciesX", "geneA", 1, "db1"⟩]
        "SpeciesX" "db1" 3 = ["geneA"] ∧
    ¬ ((3 : Int) ≤ (1 : Int)) := by
  constructor
  · decide
  · decide

/-- C10 (amended): with duplicate knowledge-base entries for the same
(species, gene, database) triple, a record bearing that gene is retained if
and only if at least one of the duplicate entries meets the threshold;
occurrence counts of duplicates are never added together. -/
theorem claim_C10_amended (e1 e2 : SpeciesGenes) (sp db g : String) (m : Int)
    (h1s : e1.species = sp) (h1d : e1.database_name = db) (h1g : e1.gene = g)
    (h2s : e2.species = sp) (h2d : e2.database_name = db) (h2g : e2.gene = g) :
    FilterResults.filter_by_species id [g] [e1, e2] sp db m =
      if m ≤ e1.occurances ∨ m ≤ e2.occurances then [g] else [] := by
  simp only [FilterResults.filter_by_species, List.filter]
  rw [filter_membership_test id [e1, e2] sp db m g]
  by_cases ha : m ≤ e1.occurances <;> by_cases hb : m ≤ e2.occurances <;>
    simp [h1s, h1d, h1g, h2s, h2d, h2g, ha, hb]

/-- C10 (witness): the amended theorem applied to the counterexample's
duplicate entries. -/
theorem claim_C10_amended_witness :
    FilterResults.filter_by_species id ["geneA"]
        [⟨"SpeciesX", "geneA", 5, "db1"⟩, ⟨"SpeciesX", "geneA", 1, "db1"⟩]
        "SpeciesX" "db1" 3 =
      if (3 : Int) ≤ 5 ∨ (3 : Int) ≤ 1 then ["geneA"] else [] :=
  claim_C10_amended ⟨"SpeciesX", "geneA", 5, "db1"⟩ ⟨"SpeciesX", "geneA", 1, "db1"⟩
    "SpeciesX" "db1" "geneA" 3 rfl rfl rfl rfl rfl rfl

/-- C2 (counterexample): the claim says a header whose column count differs
from the expected header's is rejected, yet `is_valid` accepts the one-column
header `["#FILE"]` against the 13-column Abricate 0.9.7 expected header. -/
theorem claim_C2_counterexample :
    AmrParser.is_valid ["#FILE"] Abricate097.default_header = some true ∧
    (["#FILE"] : List String) ≠ Abricate097.default_header := by
  constructor
  · rfl
  · decide

/-- C2 (amended): `is_valid` returns `some true` iff the actual header is a
position-for-position prefix of the expected header (so equal headers are
accepted and permuted same-length headers are rejected), and it raises an
index error (returns no boolean) iff the actual header strictly extends the
expected header, agreeing with it on every expected position. -/
theorem claim_C2_amended (h d : List String) :
    (AmrParser.is_valid h d = some true ↔ d.take h.length = h) ∧
    (AmrParser.is_valid h d = none ↔ d.length < h.length ∧ h.take d.length = d) := by
  induction h generalizing d with
  | nil => simp [AmrParser.is_valid]
  | cons x hs ih =>
    cases d with
    | nil => simp [AmrParser.is_valid]
    | cons y ds =>
      by_cases hxy : x = y
      · subst hxy
        have hval : AmrParser.is_valid (x :: hs) (x :: ds) = AmrParser.is_valid hs ds := by
          simp [AmrParser.is_valid]
        constructor
        · rw [hval, (ih ds).1]
          simp
        · rw [hval, (ih ds).2]
          simp [Nat.succ_lt_succ_iff]
      · have hyx : ¬ y = x := fun he => hxy he.symm
        have hval : AmrParser.is_valid (x :: hs) (y :: ds) = some false := by
          simp [AmrParser.is_valid, hxy]
        constructor
        · rw [hval]
          simp [hyx]
        · rw [hval]
          simp [hxy]

/-- C3 (confirmed): a knowledge-base data row with fewer than
`SpeciesToGenes.minimum_num_columns` (3) fields is skipped without error:
dropping it leaves the load of the remaining rows unchanged (so it
contributes no entry and raises nothing, however few fields it has), and a
load consisting only of such a row completes with an empty entry list. -/
theorem claim_C3_short_rows_skipped (row : List String) (rest : List (List String))
    (hshort : row.length < SpeciesToGenes.minimum_num_columns) :
    SpeciesToGenes.populate (row :: rest) = SpeciesToGenes.populate rest ∧
    SpeciesToGenes.populate [row] = some [] := by
  constructor
  · simp [SpeciesToGenes.populate, hshort]
  · simp [SpeciesToGenes.populate, hshort]

/-- C3 (witness): the skip theorem applied to a one-field row in front of a
well-formed row. -/
theorem claim_C3_witness :
    (["x"] : List String).length < SpeciesToGenes.minimum_num_columns ∧
    (SpeciesToGenes.populate [["x"], ["sp", "g", "2", "u", "db"]] =
        SpeciesToGenes.populate [["sp", "g", "2", "u", "db"]] ∧
      SpeciesToGenes.populate [["x"]] = some []) :=
  ⟨by decide,
    claim_C3_short_rows_skipped ["x"] [["sp", "g", "2", "u", "db"]] (by decide)⟩

/-- C6 (code bug): validating an actual header that extends the Abricate
0.9.7 expected header by one extra trailing column raises IndexError
(`default_header[13]`) instead of returning a boolean, contradicting the
claim, the spec's forward-compatibility note, and the function's own
docstring ("True if header matches default_header, False otherwise"). -/
theorem claim_C6_is_valid_extension_error :
    AmrParser.is_valid (Abricate097.default_header ++ ["EXTRA"])
      Abricate097.default_header = none := by
  rfl

/-- C5 (code bug): an input whose header (the Abricate 0.9.7 expected header
plus one extra column) equals none of the four dialect schemas, with no type
hint, makes `get_results` raise IndexError inside header validation instead
of returning the empty record list the claim (and the spec's error-handling
policy) promises. -/
theorem claim_C5_unmatched_header_raises :
    IdentifyResults.get_results [Abricate097.default_header ++ ["EXTRA"]] none =
        none ∧
    Abricate097.default_header ++ ["EXTRA"] ≠ Abricate098.default_header ∧
    Abricate097.default_header ++ ["EXTRA"] ≠ Abricate097.default_header ∧
    Abricate097.default_header ++ ["EXTRA"] ≠ Staramr.default_header ∧
    Abricate097.default_header ++ ["EXTRA"] ≠ Rgi.default_header := by
  refine ⟨rfl, by decide, by decide, by decide, by decide⟩

/-- C9 (counterexample): a species with zero retained records does not emit
the detected dialect's tab-joined header line — `Scagaire.run` writes the
literal `No results` instead (here against the Abricate 0.9.7 header). -/
theorem claim_C9_counterexample :
    Scagaire.header_line AbricateResult097.header ([] : List AbricateResult097) =
        "No results" ∧
    "No results" ≠ String.intercalate "\t" Abricate097.default_header := by
  refine ⟨rfl, by decide⟩

/-- C9 (amended): for a species with zero retained records the output block's
header line is the literal `No results` and its body is empty; the detected
dialect's tab-joined header line is emitted exactly when at least one record
is retained (taken from the first record's display header). -/
theorem claim_C9_empty_species_block {α : Type} (headerOf : α → List String)
    (strOf : α → Option String) :
    Scagaire.header_line headerOf ([] : List α) = "No results" ∧
    Scagaire.output_content strOf ([] : List α) = some "" ∧
    ∀ (r : α) (rs : List α),
      Scagaire.header_line headerOf (r :: rs) = String.intercalate "\t" (headerOf r) :=
  ⟨rfl, rfl, fun _ _ => rfl⟩

theorem pyDictContains_iff_mem {β : Type} (d : List (String × β)) (k : String) :
    pyDictContains d k = true ↔ k ∈ d.map Prod.fst := by
  unfold pyDictContains
  rw [List.any_eq_true]
  simp [List.mem_map, eq_comm]

theorem summary_step_keys {α : Type} (gene : α → String)
    (d : List (String × SummaryResult)) (r : α) :
    (Summary.step gene d r).map Prod.fst =
      if gene r ∈ d.map Prod.fst then d.map Prod.fst
      else d.map Prod.fst ++ [gene r] := by
  unfold Summary.step
  by_cases hc : pyDictContains d (gene r)
  · rw [if_pos hc, if_pos ((pyDictContains_iff_mem d (gene r)).mp hc), List.map_map]
    apply List.map_eq_map_iff.mpr
    intro p _
    by_cases hp : p.1 = gene r <;> simp [hp]
  · have hm : ¬ gene r ∈ d.map Prod.fst :=
      fun hmem => hc ((pyDictContains_iff_mem d (gene r)).mpr hmem)
    rw [if_neg hc, if_neg hm, List.map_append]
    rfl

theorem summary_keys_aux {α : Type} (gene : α → String) (rs : List α)
    (d : List (String × SummaryResult)) :
    ((rs.foldl (Summary.step gene) d).map Prod.fst) =
      (rs.map gene).foldl (fun acc g => if g ∈ acc then acc else acc ++ [g])
        (d.map Prod.fst) := by
  induction rs generalizing d with
  | nil => rfl
  | cons r rest ih =>
    rw [List.foldl_cons, ih, List.map_cons, List.foldl_cons, summary_step_keys]

theorem pyDictGet_map_bump (d : List (String × SummaryResult)) (k x : String) :
    pyDictGet
        (d.map (fun p =>
          if p.1 = k then (p.1, ⟨p.2.gene_name, p.2.occurances + 1⟩) else p)) x =
      if k = x then
        (pyDictGet d x).map (fun s => ⟨s.gene_name, s.occurances + 1⟩)
      else pyDictGet d x :=
  pyDictGet_map_update d k (fun s => SummaryResult.mk s.gene_name (s.occurances + 1)) x

theorem summary_step_lookup {α : Type} (gene : α → String)
    (d : List (String × SummaryResult)) (r : α) (x : String) :
    pyDictGet (Summary.step gene d r) x =
      if gene r = x then
        match pyDictGet d x with
        | some s => some ⟨s.gene_name, s.occurances + 1⟩
        | none => some ⟨gene r, 1⟩
      else pyDictGet d x := by
  unfold Summary.step
  by_cases hc : pyDictContains d (gene r)
  · rw [if_pos hc, pyDictGet_map_bump]
    by_cases hgx : gene r = x
    · rw [if_pos hgx, if_pos hgx]
      cases hs : pyDictGet d x with
      | none =>
        have : pyDictContains d x = false := (pyDictGet_none_iff d x).mp hs
        rw [hgx] at hc
        rw [this] at hc
        exact absurd hc (by simp)
      | some s => simp
    · rw [if_neg hgx, if_neg hgx]
  · rw [if_neg hc, pyDictGet_append]
    have hnone : pyDictGet d (gene r) = none :=
      (pyDictGet_none_iff d (gene r)).mpr (by simpa using hc)
    by_cases hgx : gene r = x
    · rw [if_pos hgx, ← hgx, hnone]
      simp [pyDictGet]
    · rw [if_neg hgx]
      cases hs : pyDictGet d x with
      | none => simp [pyDictGet, hgx]
      | some s => simp

theorem summary_lookup_aux {α : Type} (gene : α → String) (rs : List α)
    (d : List (String × SummaryResult)) (x : String) :
    pyDictGet (rs.foldl (Summary.step gene) d) x =
      match pyDictGet d x with
      | some s => some ⟨s.gene_name, s.occurances + (rs.map gene).count x⟩
      | none =>
        if x ∈ rs.map gene then some ⟨x, (rs.map gene).count x⟩ else none := by
  induction rs generalizing d with
  | nil =>
    cases hs : pyDictGet d x <;> simp [hs]
  | cons r rest ih =>
    rw [List.foldl_cons, ih, summary_step_lookup]
    by_cases hgx : gene r = x
    · rw [if_pos hgx]
      cases hs : pyDictGet d x with
      | none =>
        simp [hgx, List.count_cons, SummaryResult.mk.injEq]
        omega
      | some s =>
        simp [hgx, List.count_cons, SummaryResult.mk.injEq]
        omega
    · have hxg : ¬ x = gene r := fun he => hgx he.symm
      rw [if_neg hgx]
      cases hs : pyDictGet d x <;> simp [List.count_cons, hxg]

/-- C7 (confirmed): `Summary.aggregate_results` maps each gene name to the
number of records bearing it — looking up any gene name yields exactly its
record count (and nothing for absent genes) — with entries in first-occurrence
order of the input; aggregating [geneA, geneA, geneB] yields geneA ↦ 2 before
geneB ↦ 1. Purity is immediate: the model is a function of the record list
alone. -/
theorem claim_C7_summary_aggregation :
    (∀ {α : Type} (gene : α → String) (results : List α),
      (Summary.aggregate_results gene results).map Prod.fst =
          spec_first_occurrence_order (results.map gene) ∧
      ∀ x : String,
        pyDictGet (Summary.aggregate_results gene results) x =
          if x ∈ results.map gene then
            some ⟨x, (results.map gene).count x⟩
          else none) ∧
    Summary.aggregate_results id ["geneA", "geneA", "geneB"] =
      [("geneA", ⟨"geneA", 2⟩), ("geneB", ⟨"geneB", 1⟩)] := by
  constructor
  · intro α gene results
    constructor
    · exact summary_keys_aux gene results []
    · intro x
      unfold Summary.aggregate_results
      rw [summary_lookup_aux]
      simp [pyDictGet]
  · rfl

/-- C8 (confirmed): for each of the four dialect schemas, a record parsed
from a well-formed data row (the dialect's expected header, one value per
column) re-rendered by the result class's `__str__` reproduces the original
tab-joined line field-for-field. The Abricate 0.9.7 parser and all four
renderers are from src; the other three parsers are modelled from the spec's
schemas as noted at their definitions. -/
theorem claim_C8_dialect_roundtrip :
    (∀ a0 a1 a2 a3 a4 a5 a6 a7 a8 a9 a10 a11 a12 : String,
      (Abricate097.mk [Abricate097.default_header,
          [a0, a1, a2, a3, a4, a5, a6, a7, a8, a9, a10, a11, a12]]).map
        (fun p => p.1.map AbricateResult097.str) =
      some [some (String.intercalate "\t"
        [a0, a1, a2, a3, a4, a5, a6, a7, a8, a9, a10, a11, a12])]) ∧
    (∀ b0 b1 b2 b3 b4 b5 b6 b7 b8 b9 b10 b11 b12 b13 b14 : String,
      (Abricate098.mk [Abricate098.default_header,
          [b0, b1, b2, b3, b4, b5, b6, b7, b8, b9, b10, b11, b12, b13, b14]]).map
        (fun p => p.1.map AbricateResult098.str) =
      some [some (String.intercalate "\t"
        [b0, b1, b2, b3, b4, b5, b6, b7, b8, b9, b10, b11, b12, b13, b14])]) ∧
    (∀ c0 c1 c2 c3 c4 c5 c6 c7 c8 c9 : String,
      (Staramr.mk [Staramr.default_header,
          [c0, c1, c2, c3, c4, c5, c6, c7, c8, c9]]).map
        (fun p => p.1.map StaramrResult.str) =
      some [some (String.intercalate "\t"
        [c0, c1, c2, c3, c4, c5, c6, c7, c8, c9])]) ∧
    (∀ d0 d1 d2 d3 d4 d5 d6 d7 d8 d9 d10 d11 d12 d13 d14 d15 d16 d17 d18 d19
        d20 d21 d22 d23 d24 : String,
      (Rgi.mk [Rgi.default_header,
          [d0, d1, d2, d3, d4, d5, d6, d7, d8, d9, d10, d11, d12, d13, d14,
           d15, d16, d17, d18, d19, d20, d21, d22, d23, d24]]).map
        (fun p => p.1.map RgiResult.str) =
      some [some (String.intercalate "\t"
        [d0, d1, d2, d3, d4, d5, d6, d7, d8, d9, d10, d11, d12, d13, d14,
         d15, d16, d17, d18, d19, d20, d21, d22, d23, d24])]) :=
  ⟨fun _ _ _ _ _ _ _ _ _ _ _ _ _ => rfl,
   fun _ _ _ _ _ _ _ _ _ _ _ _ _ _ _ => rfl,
   fun _ _ _ _ _ _ _ _ _ _ => rfl,
   fun _ _ _ _ _ _ _ _ _ _ _ _ _ _ _ _ _ _ _ _ _ _ _ _ _ => rfl⟩

/-- C4 (counterexample): a file in Abricate 0.9.8 format with one data row,
passed with the explicit hint `abricate` (the only abricate hint the detector
checks, on its legacy branch): the hinted dialect does not win over the
priority order — `get_results` returns the Abricate 0.9.8 parse, while the
legacy parser's parse of the same file (shown via `Abricate097.mk`) is a
different record list, so the claim's "the hinted dialect wins over the
default priority order" fails here. -/
theorem claim_C4_counterexample :
    IdentifyResults.get_results
        [Abricate098.default_header,
         ["f1", "s1", "1", "2", "+", "gA", "c1", "cm1", "g1", "pc1", "pi1",
          "d1", "a1", "p1", "r1"]] (some "abricate") =
      some (AmrResults.abricate098
        [{ file := some "f1", sequence := some "s1", start := some "1",
           end_ := some "2", strand := some "+", gene := some "gA",
           coverage := some "c1", coverage_map := some "cm1",
           gaps := some "g1", perc_coverage := some "pc1",
           perc_identity := some "pi1", database := some "d1",
           accession := some "a1", product := some "p1",
           resistance := some "r1", header := Abricate098.default_header }]) ∧
    Abricate097.mk
        [Abricate098.default_header,
         ["f1", "s1", "1", "2", "+", "gA", "c1", "cm1", "g1", "pc1", "pi1",
          "d1", "a1", "p1", "r1"]] =
      some ([{ file := some "f1", sequence := some "s1", start := some "1",
               end_ := some "2", gene := some "gA", coverage := some "c1",
               coverage_map := some "cm1", gaps := some "g1",
               perc_coverage := some "pc1", perc_identity := some "pi1",
               database := some "d1", accession := some "a1",
               product := some "p1", header := Abricate097.default_header }],
            Abricate098.default_header) ∧
    AmrResults.abricate098
        [{ file := some "f1", sequence := some "s1", start := some "1",
           end_ := some "2", strand := some "+", gene := some "gA",
           coverage := some "c1", coverage_map := some "cm1",
           gaps := some "g1", perc_coverage := some "pc1",
           perc_identity := some "pi1", database := some "d1",
           accession := some "a1", product := some "p1",
           resistance := some "r1", header := Abricate098.default_header }] ≠
      AmrResults.abricate097
        [{ file := some "f1", sequence := some "s1", start := some "1",
           end_ := some "2", gene := some "gA", coverage := some "c1",
           coverage_map := some "cm1", gaps := some "g1",
           perc_coverage := some "pc1", perc_identity := some "pi1",
           database := some "d1", accession := some "a1",
           product := some "p1", header := Abricate097.default_header }] := by
  refine ⟨rfl, rfl, by decide⟩

/-- C4 (amended): the detector returns the parsed records of the first
dialect, in the fixed order {AbricateCurrent, AbricateLegacy, StarAmr, Rgi},
whose header validation succeeds or — for the last three only — whose hint
(`abricate` selects AbricateLegacy, `staramr` StarAmr, `rgi` Rgi) is given;
a hint never overrides an earlier dialect whose validation succeeds,
AbricateCurrent is selected by validation only, and when nothing is selected
the bare empty list is returned. -/
theorem claim_C4_amended :
    (∀ (c : List (List String)) (ht : Option String)
        (r98 : List AbricateResult098) (h98 : List String),
      Abricate098.mk c = some (r98, h98) →
      AmrParser.is_valid h98 Abricate098.default_header = some true →
      IdentifyResults.get_results c ht = some (AmrResults.abricate098 r98)) ∧
    (∀ (c : List (List String)) (ht : Option String)
        (r98 : List AbricateResult098) (h98 : List String)
        (r97 : List AbricateResult097) (h97 : List String) (v97 : Bool),
      Abricate098.mk c = some (r98, h98) →
      AmrParser.is_valid h98 Abricate098.default_header = some false →
      Abricate097.mk c = some (r97, h97) →
      AmrParser.is_valid h97 Abricate097.default_header = some v97 →
      (v97 = true ∨ ht = some "abricate") →
      IdentifyResults.get_results c ht = some (AmrResults.abricate097 r97)) ∧
    (∀ (c : List (List String)) (ht : Option String)
        (r98 : List AbricateResult098) (h98 : List String)
        (r97 : List AbricateResult097) (h97 : List String)
        (rs : List StaramrResult) (hs : List String) (vs : Bool),
      Abricate098.mk c = some (r98, h98) →
      AmrParser.is_valid h98 Abricate098.default_header = some false →
      Abricate097.mk c = some (r97, h97) →
      AmrParser.is_valid h97 Abricate097.default_header = some false →
      ht ≠ some "abricate" →
      Staramr.mk c = some (rs, hs) →
      AmrParser.is_valid hs Staramr.default_header = some vs →
      (vs = true ∨ ht = some "staramr") →
      IdentifyResults.get_results c ht = some (AmrResults.staramr rs)) ∧
    (∀ (c : List (List String)) (ht : Option String)
        (r98 : List AbricateResult098) (h98 : List String)
        (r97 : List AbricateResult097) (h97 : List String)
        (rs : List StaramrResult) (hs : List String)
        (rr : List RgiResult) (hr : List String) (vr : Bool),
      Abricate098.mk c = some (r98, h98) →
      AmrParser.is_valid h98 Abricate098.default_header = some false →
      Abricate097.mk c = some (r97, h97) →
      AmrParser.is_valid h97 Abricate097.default_header = some false →
      ht ≠ some "abricate" →
      Staramr.mk c = some (rs, hs) →
      AmrParser.is_valid hs Staramr.default_header = some false →
      ht ≠ some "staramr" →
      Rgi.mk c = some (rr, hr) →
      AmrParser.is_valid hr Rgi.default_header = some vr →
      (vr = true ∨ ht = some "rgi") →
      IdentifyResults.get_results c ht = some (AmrResults.rgi rr)) ∧
    (∀ (c : List (List String)) (ht : Option String)
        (r98 : List AbricateResult098) (h98 : List String)
        (r97 : List AbricateResult097) (h97 : List String)
        (rs : List StaramrResult) (hs : List String)
        (rr : List RgiResult) (hr : List String),
      Abricate098.mk c = some (r98, h98) →
      AmrParser.is_valid h98 Abricate098.default_header = some false →
      Abricate097.mk c = some (r97, h97) →
      AmrParser.is_valid h97 Abricate097.default_header = some false →
      Staramr.mk c = some (rs, hs) →
      AmrParser.is_valid hs Staramr.default_header = some false →
      Rgi.mk c = some (rr, hr) →
      AmrParser.is_valid hr Rgi.default_header = some false →
      ht ≠ some "abricate" → ht ≠ some "staramr" → ht ≠ some "rgi" →
      IdentifyResults.get_results c ht = some AmrResults.empty) := by
  refine ⟨?_, ?_, ?_, ?_, ?_⟩
  · intro c ht r98 h98 hmk98 hv98
    simp [IdentifyResults.get_results, hmk98, hv98]
  · intro c ht r98 h98 r97 h97 v97 hmk98 hv98 hmk97 hv97 hsel
    cases hsel with
    | inl h =>
      subst h
      simp [IdentifyResults.get_results, hmk98, hv98, hmk97, hv97]
    | inr h =>
      subst h
      simp [IdentifyResults.get_results, hmk98, hv98, hmk97, hv97]
  · intro c ht r98 h98 r97 h97 rs hs vs hmk98 hv98 hmk97 hv97 hne hmkS hvS hsel
    cases hsel with
    | inl h =>
      subst h
      simp [IdentifyResults.get_results, hmk98, hv98, hmk97, hv97, hne, hmkS, hvS]
    | inr h =>
      subst h
      simp [IdentifyResults.get_results, hmk98, hv98, hmk97, hv97, hne, hmkS, hvS]
  · intro c ht r98 h98 r97 h97 rs hs rr hr vr hmk98 hv98 hmk97 hv97 hneA hmkS
      hvS hneS hmkR hvR hsel
    cases hsel with
    | inl h =>
      subst h
      simp [IdentifyResults.get_results, hmk98, hv98, hmk97, hv97, hneA, hmkS,
        hvS, hneS, hmkR, hvR]
    | inr h =>
      subst h
      simp [IdentifyResults.get_results, hmk98, hv98, hmk97, hv97, hneA, hmkS,
        hvS, hneS, hmkR, hvR]
  · intro c ht r98 h98 r97 h97 rs hs rr hr hmk98 hv98 hmk97 hv97 hmkS hvS hmkR
      hvR hneA hneS hneR
    simp [IdentifyResults.get_results, hmk98, hv98, hmk97, hv97, hmkS, hvS,
      hmkR, hvR, hneA, hneS, hneR]

/-- C4 (witness): the amended dispatch applied at concrete inputs — a file
consisting of just the Abricate 0.9.7 header is returned by the legacy branch
(validation succeeds there), and an unrecognized one-column file with the
`staramr` hint is returned by the StarAmr branch. -/
theorem claim_C4_amended_witness :
    IdentifyResults.get_results [Abricate097.default_header] none =
        some (AmrResults.abricate097 []) ∧
    IdentifyResults.get_results [["X"]] (some "staramr") =
        some (AmrResults.staramr []) := by
  constructor
  · exact claim_C4_amended.2.1 [Abricate097.default_header] none []
      Abricate097.default_header [] Abricate097.default_header true rfl rfl rfl
      rfl (Or.inl rfl)
  · exact claim_C4_amended.2.2.1 [["X"]] (some "staramr") [] ["X"] [] ["X"] []
      ["X"] false rfl rfl rfl rfl (by decide) rfl rfl (Or.inr rfl)
